import Mathlib

/-!
Verification of the CompraCoche cost-of-ownership calculator.

This file shallowly embeds the calculation pipeline of the React app
(`handleSubmit`, `validateForm`, `handleRouteCalculation`, `presetConfig`)
into Lean. JavaScript numbers are modelled as rationals; a JavaScript
value that becomes `NaN` through an `undefined` object lookup
(`fuelPrices[car.fuelType]` for a fuel type absent from the `fuelPrices`
object) is modelled as `none : Option ℚ`, and arithmetic on it
propagates `none`, matching NaN propagation.
-/

set_option maxRecDepth 4000

namespace CompraCoche

/-- The `fuelType` discriminator of `FuelConsumptionData`
(union of five string literals in the source). -/
inductive FuelType
  | gasolina
  | diesel
  | glp
  | hibrido
  | phev
deriving DecidableEq

/-- One consumption record returned by the consumption-data provider,
mirroring the `FuelConsumptionData` interface. The display string
`type` is kept as a string because the pipeline compares it with
"Gasolina" by string equality; the `icon` field of the source record is
presentation-only and omitted. -/
structure FuelConsumptionData where
  type : String
  fuelType : FuelType
  cityConsumptionLiters : ℚ
  highwayConsumptionLiters : ℚ
  cityConsumptionKwh : ℚ
deriving DecidableEq

/-- The form state, mirroring the `UserInput` interface. -/
structure UserInput where
  weekdayCommuteKm : ℚ
  weekendTripKm : ℚ
  estimatedAnnualKm : ℚ
  priceGasoline : ℚ
  priceDiesel : ℚ
  priceLPG : ℚ
  priceElectricity : ℚ
  purchaseGasoline : ℚ
  purchaseDiesel : ℚ
  purchaseLPG : ℚ
  purchaseHEV : ℚ
  purchasePHEV : ℚ
  years : ℚ
deriving DecidableEq

/-- The three route-mix presets (`RoutePreset` in the source). -/
inductive RoutePreset
  | urban
  | mixed
  | highway
deriving DecidableEq

/-- City fraction of each preset, from `presetConfig`. -/
def cityFrac : RoutePreset → ℚ
  | .urban => 0.8
  | .mixed => 0.5
  | .highway => 0.2

/-- Highway fraction of each preset, from `presetConfig`. -/
def highwayFrac : RoutePreset → ℚ
  | .urban => 0.2
  | .mixed => 0.5
  | .highway => 0.8

/-- Annual city distance, from `handleSubmit`: the explicit annual total
split by the preset when `estimatedAnnualKm > 0`, otherwise derived from
the weekday commute (×2 round trip ×5 weekdays) and the weekend trip,
each multiplied by the preset city fraction, times 52 weeks. -/
def annualCityKm (u : UserInput) (p : RoutePreset) : ℚ :=
  if 0 < u.estimatedAnnualKm then
    u.estimatedAnnualKm * cityFrac p
  else
    (u.weekdayCommuteKm * cityFrac p * 2 * 5 + u.weekendTripKm * cityFrac p) * 52

/-- Annual highway distance, from `handleSubmit` (same structure as
`annualCityKm` with the highway fraction). -/
def annualHighwayKm (u : UserInput) (p : RoutePreset) : ℚ :=
  if 0 < u.estimatedAnnualKm then
    u.estimatedAnnualKm * highwayFrac p
  else
    (u.weekdayCommuteKm * highwayFrac p * 2 * 5 + u.weekendTripKm * highwayFrac p) * 52

/-- The `annualKm` variable of `handleSubmit`: the explicit total when
positive, otherwise the sum of the two derived components. -/
def annualKmTotal (u : UserInput) (p : RoutePreset) : ℚ :=
  if 0 < u.estimatedAnnualKm then
    u.estimatedAnnualKm
  else
    annualCityKm u p + annualHighwayKm u p

/-- The `purchasePrices` object of `handleSubmit`: it has a key for all
five fuel types. -/
def purchasePrices (u : UserInput) : FuelType → ℚ
  | .gasolina => u.purchaseGasoline
  | .diesel => u.purchaseDiesel
  | .glp => u.purchaseLPG
  | .hibrido => u.purchaseHEV
  | .phev => u.purchasePHEV

/-- The `fuelPrices` object of `handleSubmit`: it has keys only for
`gasolina`, `diesel` and `glp`; looking up any other fuel type yields
`undefined`, modelled as `none`. -/
def fuelPrices (u : UserInput) : FuelType → Option ℚ
  | .gasolina => some u.priceGasoline
  | .diesel => some u.priceDiesel
  | .glp => some u.priceLPG
  | _ => none

/-- The per-record annual fuel cost of `handleSubmit`: the PHEV branch
uses the electricity price and the gasoline price directly; every other
record multiplies its consumptions by `fuelPrices[car.fuelType]`, which
is `undefined` (hence NaN, modelled `none`) for the `hibrido` fuel type. -/
def annualFuelCost (u : UserInput) (cityKm hwKm : ℚ) (car : FuelConsumptionData) :
    Option ℚ :=
  if car.fuelType = FuelType.phev then
    some ((cityKm / 100) * car.cityConsumptionKwh * u.priceElectricity
      + (cityKm / 100) * car.cityConsumptionLiters * u.priceGasoline
      + (hwKm / 100) * car.highwayConsumptionLiters * u.priceGasoline)
  else
    (fuelPrices u car.fuelType).map (fun p =>
      (cityKm / 100) * car.cityConsumptionLiters * p
      + (hwKm / 100) * car.highwayConsumptionLiters * p)

/-- One element of `calculatedResults`, mirroring `CalculationResult`
(minus the presentation-only `icon` field). `totalCost` and
`annualFuelCost` are `Option ℚ` because they are NaN when the fuel-price
lookup was `undefined`. -/
structure CalculationResult where
  name : String
  totalCost : Option ℚ
  annualFuelCost : Option ℚ
  amortizationYears : Option ℚ
  purchasePrice : ℚ
  annualKm : ℚ
deriving DecidableEq

/-- The record built for one consumption record inside the
`consumptionData.map` of `handleSubmit`:
`totalCost = purchasePrice + annualFuelCost * years`
(NaN when the annual fuel cost is NaN), `amortizationYears`
initialised to `null`. -/
def mkResult (u : UserInput) (cityKm hwKm annualKm : ℚ)
    (car : FuelConsumptionData) : CalculationResult :=
  { name := car.type
  , totalCost := (annualFuelCost u cityKm hwKm car).map
      (fun a => purchasePrices u car.fuelType + a * u.years)
  , annualFuelCost := annualFuelCost u cityKm hwKm car
  , amortizationYears := none
  , purchasePrice := purchasePrices u car.fuelType
  , annualKm := annualKm }

/-- The `calculatedResults` array of `handleSubmit`. -/
def calculatedResults (u : UserInput) (p : RoutePreset)
    (cars : List FuelConsumptionData) : List CalculationResult :=
  cars.map (mkResult u (annualCityKm u p) (annualHighwayKm u p) (annualKmTotal u p))

/-- `calculatedResults.find(r => r.name === 'Gasolina')`. -/
def findGasoline (rs : List CalculationResult) : Option CalculationResult :=
  rs.find? (fun r => r.name = "Gasolina")

/-- `gasolineCar.annualFuelCost - result.annualFuelCost`; NaN (`none`)
when either operand is NaN. -/
def optSavings (b r : CalculationResult) : Option ℚ :=
  match b.annualFuelCost, r.annualFuelCost with
  | some x, some y => some (x - y)
  | _, _ => none

/-- The value `result.amortizationYears` holds after the amortization
`forEach` of `handleSubmit`, for baseline `b`: it is assigned
`(result.purchasePrice - gasolineCar.purchasePrice) / annualSavings`
exactly when the result is not named "Gasolina", its purchase price
exceeds the baseline's and `annualSavings > 0` (false for NaN savings),
and is left unchanged otherwise. -/
def amortFor (b r : CalculationResult) : Option ℚ :=
  if r.name ≠ "Gasolina" ∧ b.purchasePrice < r.purchasePrice then
    match optSavings b r with
    | some s =>
        if 0 < s then some ((r.purchasePrice - b.purchasePrice) / s)
        else r.amortizationYears
    | none => r.amortizationYears
  else r.amortizationYears

/-- One result after the amortization pass against baseline `b`. -/
def amortUpdate (b r : CalculationResult) : CalculationResult :=
  { r with amortizationYears := amortFor b r }

/-- The amortization pass of `handleSubmit`: skipped entirely (silently)
when no result is named "Gasolina". -/
def applyAmortization (rs : List CalculationResult) : List CalculationResult :=
  match findGasoline rs with
  | some b => rs.map (amortUpdate b)
  | none => rs

/-- The results array of `handleSubmit` just before sorting. -/
def amortizedResults (u : UserInput) (p : RoutePreset)
    (cars : List FuelConsumptionData) : List CalculationResult :=
  applyAmortization (calculatedResults u p cars)

/-- The boolean reading of the JavaScript sort comparator
`(a, b) => a.totalCost - b.totalCost`: per the ECMAScript `SortCompare`
rule a NaN comparator value is treated as `+0`, i.e. the elements
compare as equal, so `sortLe` is `true` whenever either total cost is
NaN. -/
def sortLe (a b : CalculationResult) : Bool :=
  match a.totalCost, b.totalCost with
  | some x, some y => decide (x ≤ y)
  | _, _ => true

/-- Insertion of one element into a sorted list under `sortLe`
(the element goes before the first entry it compares `le` to). -/
def insertRes (r : CalculationResult) : List CalculationResult → List CalculationResult
  | [] => [r]
  | x :: xs => if sortLe r x then r :: x :: xs else x :: insertRes r xs

/-- Insertion sort under `sortLe`, modelling
`calculatedResults.sort((a, b) => a.totalCost - b.totalCost)`. -/
def sortResults : List CalculationResult → List CalculationResult
  | [] => []
  | x :: xs => insertRes x (sortResults xs)

/-- The `sortedResults` array of `handleSubmit`. -/
def sortedResults (u : UserInput) (p : RoutePreset)
    (cars : List FuelConsumptionData) : List CalculationResult :=
  sortResults (amortizedResults u p cars)

/-- `const bestResult = results ? results[0] : null` — the first element
of the sorted results is designated the best option. -/
def bestResult (u : UserInput) (p : RoutePreset)
    (cars : List FuelConsumptionData) : Option CalculationResult :=
  (sortedResults u p cars).head?

/-- Comparison of two possibly-NaN total costs the way the claimed
ordering reads them: both must be actual numbers, ordered by `≤`. -/
def optLeQ (x y : Option ℚ) : Prop :=
  ∃ a b, x = some a ∧ y = some b ∧ a ≤ b

/-- Sort key used in the sorting proofs: the total cost with NaN read
as 0 (only ever used on lists whose total costs are all defined). -/
def tKey (r : CalculationResult) : ℚ :=
  r.totalCost.getD 0

/-- The ordering relation on results induced by `tKey`. -/
def keyLe (a b : CalculationResult) : Prop :=
  tKey a ≤ tKey b

/-- The form fields `validateForm` can attribute an error to. -/
inductive Field
  | priceGasoline
  | priceDiesel
  | priceLPG
  | priceElectricity
  | purchaseGasoline
  | purchaseDiesel
  | purchaseLPG
  | purchaseHEV
  | purchasePHEV
  | weekdayCommuteKm
  | weekendTripKm
  | estimatedAnnualKm
  | years
deriving DecidableEq

/-- Message for a non-positive price field. -/
def posMsg : String := "Debe ser un valor positivo."

/-- Message for a negative distance field. -/
def negMsg : String := "No puede ser un valor negativo."

/-- Message for a horizon below one year. -/
def yearsMsg : String := "Debe ser al menos 1 año."

/-- One positivity check of `validateForm`. -/
def posCheck (f : Field) (v : ℚ) : List (Field × String) :=
  if v ≤ 0 then [(f, posMsg)] else []

/-- One non-negativity check of `validateForm`. -/
def negCheck (f : Field) (v : ℚ) : List (Field × String) :=
  if v < 0 then [(f, negMsg)] else []

/-- The error map built by `validateForm`, as the list of
(field, message) pairs in the order the source inserts them: the nine
`positiveFields`, the three `nonNegativeFields`, then the
`years < 1` check. -/
def validateForm (u : UserInput) : List (Field × String) :=
  posCheck Field.priceGasoline u.priceGasoline
    ++ posCheck Field.priceDiesel u.priceDiesel
    ++ posCheck Field.priceLPG u.priceLPG
    ++ posCheck Field.priceElectricity u.priceElectricity
    ++ posCheck Field.purchaseGasoline u.purchaseGasoline
    ++ posCheck Field.purchaseDiesel u.purchaseDiesel
    ++ posCheck Field.purchaseLPG u.purchaseLPG
    ++ posCheck Field.purchaseHEV u.purchaseHEV
    ++ posCheck Field.purchasePHEV u.purchasePHEV
    ++ negCheck Field.weekdayCommuteKm u.weekdayCommuteKm
    ++ negCheck Field.weekendTripKm u.weekendTripKm
    ++ negCheck Field.estimatedAnnualKm u.estimatedAnnualKm
    ++ (if u.years < 1 then [(Field.years, yearsMsg)] else [])

/-- Whether `handleSubmit` proceeds past the `validateForm` guard into
the calculation (including the external consumption fetch, which is the
first statement after the guard). -/
def calculationStarts (u : UserInput) : Bool :=
  (validateForm u).isEmpty

/-- `Math.round`, which for every JavaScript number equals
`⌊x + 0.5⌋`. -/
def jsRound (x : ℚ) : ℤ :=
  ⌊x + 1 / 2⌋

/-- Outcome of one invocation of `handleRouteCalculation`. -/
structure RouteCalcOutcome where
  errorMessage : Option String
  callMade : Bool
  newCommuteKm : Option ℚ
  newPreset : Option RoutePreset
deriving DecidableEq

/-- `handleRouteCalculation` on a successful external route result
`route = (distance, cityPercentage)`: with an empty address it sets an
error and never calls the estimator; otherwise it stores the rounded
distance as the weekday commute and derives the preset from the city
percentage. -/
def handleRouteCalculation (homeAddress workAddress : String)
    (route : ℚ × ℚ) : RouteCalcOutcome :=
  if homeAddress = "" ∨ workAddress = "" then
    { errorMessage := some "Por favor, introduce la dirección de casa y del trabajo."
    , callMade := false
    , newCommuteKm := none
    , newPreset := none }
  else
    { errorMessage := none
    , callMade := true
    , newCommuteKm := some ((jsRound route.1 : ℤ) : ℚ)
    , newPreset := some (if 70 ≤ route.2 then RoutePreset.urban
        else if route.2 ≤ 30 then RoutePreset.highway
        else RoutePreset.mixed) }

/-- The app's default form state (initial `useState` value), used as the
concrete input of the spec's scenarios. -/
def uBase : UserInput :=
  { weekdayCommuteKm := 25
  , weekendTripKm := 150
  , estimatedAnnualKm := 0
  , priceGasoline := 1.6
  , priceDiesel := 1.5
  , priceLPG := 0.9
  , priceElectricity := 0.2
  , purchaseGasoline := 25000
  , purchaseDiesel := 27000
  , purchaseLPG := 26000
  , purchaseHEV := 30000
  , purchasePHEV := 35000
  , years := 7 }

/-- Gasoline consumption record of the spec's scenario (7 / 5.5 L per
100 km). -/
def gasCar : FuelConsumptionData :=
  { type := "Gasolina"
  , fuelType := FuelType.gasolina
  , cityConsumptionLiters := 7
  , highwayConsumptionLiters := 5.5
  , cityConsumptionKwh := 0 }

/-- A diesel consumption record (6 / 5 L per 100 km). -/
def dieselCar : FuelConsumptionData :=
  { type := "Diésel"
  , fuelType := FuelType.diesel
  , cityConsumptionLiters := 6
  , highwayConsumptionLiters := 5
  , cityConsumptionKwh := 0 }

/-- A non-plug-in hybrid consumption record. -/
def hevCar : FuelConsumptionData :=
  { type := "Híbrido (HEV)"
  , fuelType := FuelType.hibrido
  , cityConsumptionLiters := 5
  , highwayConsumptionLiters := 4.5
  , cityConsumptionKwh := 0 }

/-- PHEV consumption record of the spec's scenario. -/
def phevCar : FuelConsumptionData :=
  { type := "Híbrido Enchufable (PHEV)"
  , fuelType := FuelType.phev
  , cityConsumptionLiters := 1.5
  , highwayConsumptionLiters := 5
  , cityConsumptionKwh := 15 }

/-- The default form state with a fractional ownership horizon. -/
def uHalfYear : UserInput :=
  { uBase with years := 3 / 2 }

/-- The gasoline result computed from `uBase`, the mixed preset and
`gasCar` (the spec scenario's numbers). -/
def gasResult : CalculationResult :=
  { name := "Gasolina"
  , totalCost := some 39560
  , annualFuelCost := some 2080
  , amortizationYears := none
  , purchasePrice := 25000
  , annualKm := 20800 }

/-- The diesel result computed from `uBase`, the mixed preset and
`dieselCar`, after the amortization pass against the gasoline
baseline. -/
def dieselResult : CalculationResult :=
  { name := "Diésel"
  , totalCost := some 39012
  , annualFuelCost := some 1716
  , amortizationYears := some (500 / 91)
  , purchasePrice := 27000
  , annualKm := 20800 }

/-- The hybrid result computed from `uBase`, the mixed preset and
`hevCar`: its annual fuel cost and total cost are NaN because the
`fuelPrices` object has no `hibrido` key. -/
def hevResult : CalculationResult :=
  { name := "Híbrido (HEV)"
  , totalCost := none
  , annualFuelCost := none
  , amortizationYears := none
  , purchasePrice := 30000
  , annualKm := 20800 }

/-- The default form state with an explicit annual total of 15000 km. -/
def uAnnual : UserInput :=
  { uBase with estimatedAnnualKm := 15000 }

/-- The default form state with a zero gasoline price (invalid). -/
def uBad : UserInput :=
  { uBase with priceGasoline := 0 }

/-- C1. The annual fuel cost of a gasoline, diesel or LPG record follows
the conventional formula with that fuel's own price — but for the
non-plug-in hybrid (`fuelType = hibrido`) the `fuelPrices` lookup is
`undefined`, so its annual fuel cost (and hence its total cost) is NaN,
not the gasoline-priced formula the claim states. The last three
conjuncts evaluate the pipeline at the failing input: the default form
state, mixed preset, and a 5 / 4.5 L per 100 km hybrid record. -/
theorem hybrid_fuel_price_undefined :
    (∀ (u : UserInput) (c hw : ℚ) (t : String) (cc hc ck : ℚ),
      annualFuelCost u c hw ⟨t, FuelType.gasolina, cc, hc, ck⟩
        = some ((c / 100) * cc * u.priceGasoline + (hw / 100) * hc * u.priceGasoline)) ∧
    (∀ (u : UserInput) (c hw : ℚ) (t : String) (cc hc ck : ℚ),
      annualFuelCost u c hw ⟨t, FuelType.diesel, cc, hc, ck⟩
        = some ((c / 100) * cc * u.priceDiesel + (hw / 100) * hc * u.priceDiesel)) ∧
    (∀ (u : UserInput) (c hw : ℚ) (t : String) (cc hc ck : ℚ),
      annualFuelCost u c hw ⟨t, FuelType.glp, cc, hc, ck⟩
        = some ((c / 100) * cc * u.priceLPG + (hw / 100) * hc * u.priceLPG)) ∧
    (∀ (u : UserInput) (c hw : ℚ) (t : String) (cc hc ck : ℚ),
      annualFuelCost u c hw ⟨t, FuelType.hibrido, cc, hc, ck⟩ = none) ∧
    fuelPrices uBase FuelType.hibrido = none ∧
    annualFuelCost uBase (annualCityKm uBase RoutePreset.mixed)
      (annualHighwayKm uBase RoutePreset.mixed) hevCar = none ∧
    (mkResult uBase (annualCityKm uBase RoutePreset.mixed)
      (annualHighwayKm uBase RoutePreset.mixed)
      (annualKmTotal uBase RoutePreset.mixed) hevCar).totalCost = none := by
  refine ⟨fun u c hw t cc hc ck => rfl, fun u c hw t cc hc ck => rfl,
    fun u c hw t cc hc ck => rfl, fun u c hw t cc hc ck => rfl, rfl, rfl, rfl⟩

/-- C2. If the explicit annual total is strictly positive, the annual
city and highway distances are the total times the active preset's
fractions; otherwise they follow the derived weekday/weekend formula
(commute × fraction × 2 × 5 plus weekend × fraction, times 52). The
preset fractions are urban 0.8/0.2, mixed 0.5/0.5, highway 0.2/0.8. -/
theorem annual_distance_split (u : UserInput) :
    (0 < u.estimatedAnnualKm → ∀ p,
      annualCityKm u p = u.estimatedAnnualKm * cityFrac p ∧
      annualHighwayKm u p = u.estimatedAnnualKm * highwayFrac p) ∧
    (u.estimatedAnnualKm ≤ 0 → ∀ p,
      annualCityKm u p
        = (u.weekdayCommuteKm * cityFrac p * 2 * 5 + u.weekendTripKm * cityFrac p) * 52 ∧
      annualHighwayKm u p
        = (u.weekdayCommuteKm * highwayFrac p * 2 * 5 + u.weekendTripKm * highwayFrac p) * 52) ∧
    cityFrac RoutePreset.urban = 0.8 ∧ highwayFrac RoutePreset.urban = 0.2 ∧
    cityFrac RoutePreset.mixed = 0.5 ∧ highwayFrac RoutePreset.mixed = 0.5 ∧
    cityFrac RoutePreset.highway = 0.2 ∧ highwayFrac RoutePreset.highway = 0.8 := by
  refine ⟨fun h p => ?_, fun h p => ?_, rfl, rfl, rfl, rfl, rfl, rfl⟩
  · rw [annualCityKm, annualHighwayKm, if_pos h, if_pos h]
    exact ⟨rfl, rfl⟩
  · have hn : ¬ 0 < u.estimatedAnnualKm := not_lt.mpr h
    rw [annualCityKm, annualHighwayKm, if_neg hn, if_neg hn]
    exact ⟨rfl, rfl⟩

/-- Witness for C2 at a concrete input: with an explicit annual total of
15000 km and the urban preset, the city split is 15000 × 0.8 = 12000. -/
theorem annual_distance_split_witness :
    (0 : ℚ) < uAnnual.estimatedAnnualKm ∧
    annualCityKm uAnnual RoutePreset.urban = uAnnual.estimatedAnnualKm * cityFrac RoutePreset.urban ∧
    annualCityKm uAnnual RoutePreset.urban = 12000 :=
  ⟨by norm_num [uAnnual, uBase],
    ((annual_distance_split uAnnual).1 (by norm_num [uAnnual, uBase]) RoutePreset.urban).1,
    by norm_num [annualCityKm, uAnnual, uBase, cityFrac]⟩

/-- C3. A PHEV record's annual fuel cost is the sum of the city electric
cost, the residual city gasoline cost and the highway gasoline cost; in
the spec's scenario (city/highway 10400 km each, 15 kWh, 1.5 L city,
5 L highway, electricity 0.2, gasoline 1.6) it is 1393.6. -/
theorem phev_fuel_cost :
    (∀ (u : UserInput) (c hw : ℚ) (t : String) (cc hc ck : ℚ),
      annualFuelCost u c hw ⟨t, FuelType.phev, cc, hc, ck⟩
        = some ((c / 100) * ck * u.priceElectricity
          + (c / 100) * cc * u.priceGasoline
          + (hw / 100) * hc * u.priceGasoline)) ∧
    annualCityKm uBase RoutePreset.mixed = 10400 ∧
    annualHighwayKm uBase RoutePreset.mixed = 10400 ∧
    annualFuelCost uBase (annualCityKm uBase RoutePreset.mixed)
      (annualHighwayKm uBase RoutePreset.mixed) phevCar = some 1393.6 := by
  refine ⟨fun u c hw t cc hc ck => rfl, ?_, ?_, ?_⟩
  · norm_num [annualCityKm, uBase, cityFrac]
  · norm_num [annualHighwayKm, uBase, highwayFrac]
  · norm_num [annualFuelCost, annualCityKm, annualHighwayKm, uBase, phevCar,
      cityFrac, highwayFrac]

/-- C9 (amended). Every submission accepted by `validateForm` has an
ownership horizon of at least 1 year (but not necessarily an integer:
`validateForm` only checks `years < 1`). -/
theorem horizon_at_least_one (u : UserInput) (h : validateForm u = []) :
    1 ≤ u.years := by
  by_contra hy
  rw [not_le] at hy
  have hmem : (Field.years, yearsMsg) ∈ validateForm u := by
    simp [validateForm, posCheck, negCheck, hy]
  rw [h] at hmem
  exact (List.not_mem_nil _) hmem

/-- Witness for C9: the default form state passes validation and its
horizon, 7 years, is at least 1. -/
theorem horizon_at_least_one_witness :
    validateForm uBase = [] ∧ 1 ≤ uBase.years :=
  ⟨by norm_num [validateForm, posCheck, negCheck, uBase],
    horizon_at_least_one uBase (by norm_num [validateForm, posCheck, negCheck, uBase])⟩

/-- Counterexample to C9 as stated: a form state with `years = 1.5`
passes `validateForm` (and the calculation starts), yet the horizon used
is not an integer number of years. -/
theorem horizon_fractional_accepted :
    validateForm uHalfYear = [] ∧
    calculationStarts uHalfYear = true ∧
    ¬ ∃ n : ℤ, uHalfYear.years = (n : ℚ) := by
  refine ⟨by norm_num [validateForm, posCheck, negCheck, uHalfYear, uBase],
    by norm_num [calculationStarts, validateForm, posCheck, negCheck, uHalfYear, uBase], ?_⟩
  rintro ⟨n, hn⟩
  have hy : uHalfYear.years = (3 / 2 : ℚ) := rfl
  rw [hy] at hn
  have h2 : (3 : ℚ) = (n : ℚ) * 2 := by rw [← hn]; norm_num
  have h3 : (3 : ℤ) = n * 2 := by exact_mod_cast h2
  omega

/-- C10. `handleRouteCalculation` with an empty home or work address
sets an error and makes no external call; on a successful route result
it stores the rounded distance as the weekday commute and selects the
urban preset exactly when the city percentage is at least 70, the
highway preset exactly when it is at most 30, and mixed otherwise. -/
theorem route_calculation_behavior (home work : String) (route : ℚ × ℚ) :
    ((home = "" ∨ work = "") →
      (handleRouteCalculation home work route).errorMessage.isSome = true ∧
      (handleRouteCalculation home work route).callMade = false) ∧
    (home ≠ "" → work ≠ "" →
      (handleRouteCalculation home work route).errorMessage = none ∧
      (handleRouteCalculation home work route).callMade = true ∧
      (handleRouteCalculation home work route).newCommuteKm
        = some ((jsRound route.1 : ℤ) : ℚ) ∧
      ((handleRouteCalculation home work route).newPreset = some RoutePreset.urban
        ↔ 70 ≤ route.2) ∧
      ((handleRouteCalculation home work route).newPreset = some RoutePreset.highway
        ↔ route.2 ≤ 30) ∧
      ((handleRouteCalculation home work route).newPreset = some RoutePreset.mixed
        ↔ 30 < route.2 ∧ route.2 < 70)) := by
  refine ⟨fun h => ?_, fun h1 h2 => ?_⟩
  · rw [handleRouteCalculation, if_pos h]
    exact ⟨rfl, rfl⟩
  · have hn : ¬ (home = "" ∨ work = "") := not_or.mpr ⟨h1, h2⟩
    rw [handleRouteCalculation, if_neg hn]
    refine ⟨rfl, rfl, rfl, ?_, ?_, ?_⟩
    · constructor
      · intro hp
        by_contra h70
        rw [if_neg h70] at hp
        by_cases h30 : route.2 ≤ 30
        · rw [if_pos h30] at hp
          exact RoutePreset.noConfusion (Option.some.inj hp)
        · rw [if_neg h30] at hp
          exact RoutePreset.noConfusion (Option.some.inj hp)
      · intro h70
        rw [if_pos h70]
    · constructor
      · intro hp
        by_cases h70 : 70 ≤ route.2
        · rw [if_pos h70] at hp
          exact RoutePreset.noConfusion (Option.some.inj hp)
        · rw [if_neg h70] at hp
          by_cases h30 : route.2 ≤ 30
          · exact h30
          · rw [if_neg h30] at hp
            exact RoutePreset.noConfusion (Option.some.inj hp)
      · intro h30
        have h70 : ¬ 70 ≤ route.2 := by linarith
        rw [if_neg h70, if_pos h30]
    · constructor
      · intro hp
        by_cases h70 : 70 ≤ route.2
        · rw [if_pos h70] at hp
          exact RoutePreset.noConfusion (Option.some.inj hp)
        · by_cases h30 : route.2 ≤ 30
          · rw [if_neg h70, if_pos h30] at hp
            exact RoutePreset.noConfusion (Option.some.inj hp)
          · exact ⟨not_le.mp h30, not_le.mp h70⟩
      · rintro ⟨hg, hl⟩
        rw [if_neg (not_le.mpr hl), if_neg (not_le.mpr hg)]

/-- Witness for C10: with both addresses set and a route of 24.7 km at
80 % city, the commute becomes 25 km and the preset becomes urban. -/
theorem route_calculation_behavior_witness :
    (handleRouteCalculation "Calle A 1" "Calle B 2" (24.7, 80)).callMade = true ∧
    (handleRouteCalculation "Calle A 1" "Calle B 2" (24.7, 80)).newCommuteKm = some 25 ∧
    (handleRouteCalculation "Calle A 1" "Calle B 2" (24.7, 80)).newPreset
      = some RoutePreset.urban := by
  have h := (route_calculation_behavior "Calle A 1" "Calle B 2" (24.7, 80)).2
    (by simp) (by simp)
  refine ⟨h.2.1, ?_, ?_⟩
  · rw [h.2.2.1]
    norm_num [jsRound]
  · exact h.2.2.2.1.mpr (by norm_num)

/-- A submission with any recorded validation error does not start the
calculation. -/
theorem startsFalse_of_mem {u : UserInput} {e : Field × String}
    (h : e ∈ validateForm u) : calculationStarts u = false := by
  unfold calculationStarts
  cases hv : validateForm u with
  | nil => rw [hv] at h; exact absurd h (List.not_mem_nil _)
  | cons a l => rfl

/-- C8. Each non-positive price, negative distance, or horizon below one
year puts an error on that specific field in `validateForm`; the
calculation (whose first step is the external consumption fetch) starts
exactly when the error map is empty, and in particular never starts
when one of those conditions holds. -/
theorem validation_gates_calculation (u : UserInput) :
    (u.priceGasoline ≤ 0 → ∃ m, (Field.priceGasoline, m) ∈ validateForm u) ∧
    (u.priceDiesel ≤ 0 → ∃ m, (Field.priceDiesel, m) ∈ validateForm u) ∧
    (u.priceLPG ≤ 0 → ∃ m, (Field.priceLPG, m) ∈ validateForm u) ∧
    (u.priceElectricity ≤ 0 → ∃ m, (Field.priceElectricity, m) ∈ validateForm u) ∧
    (u.purchaseGasoline ≤ 0 → ∃ m, (Field.purchaseGasoline, m) ∈ validateForm u) ∧
    (u.purchaseDiesel ≤ 0 → ∃ m, (Field.purchaseDiesel, m) ∈ validateForm u) ∧
    (u.purchaseLPG ≤ 0 → ∃ m, (Field.purchaseLPG, m) ∈ validateForm u) ∧
    (u.purchaseHEV ≤ 0 → ∃ m, (Field.purchaseHEV, m) ∈ validateForm u) ∧
    (u.purchasePHEV ≤ 0 → ∃ m, (Field.purchasePHEV, m) ∈ validateForm u) ∧
    (u.weekdayCommuteKm < 0 → ∃ m, (Field.weekdayCommuteKm, m) ∈ validateForm u) ∧
    (u.weekendTripKm < 0 → ∃ m, (Field.weekendTripKm, m) ∈ validateForm u) ∧
    (u.estimatedAnnualKm < 0 → ∃ m, (Field.estimatedAnnualKm, m) ∈ validateForm u) ∧
    (u.years < 1 → ∃ m, (Field.years, m) ∈ validateForm u) ∧
    (calculationStarts u = true ↔ validateForm u = []) ∧
    ((u.priceGasoline ≤ 0 ∨ u.priceDiesel ≤ 0 ∨ u.priceLPG ≤ 0 ∨
      u.priceElectricity ≤ 0 ∨ u.purchaseGasoline ≤ 0 ∨ u.purchaseDiesel ≤ 0 ∨
      u.purchaseLPG ≤ 0 ∨ u.purchaseHEV ≤ 0 ∨ u.purchasePHEV ≤ 0 ∨
      u.weekdayCommuteKm < 0 ∨ u.weekendTripKm < 0 ∨ u.estimatedAnnualKm < 0 ∨
      u.years < 1) → calculationStarts u = false) := by
  have c1 : u.priceGasoline ≤ 0 → ∃ m, (Field.priceGasoline, m) ∈ validateForm u :=
    fun h => ⟨posMsg, by simp [validateForm, posCheck, negCheck, h]⟩
  have c2 : u.priceDiesel ≤ 0 → ∃ m, (Field.priceDiesel, m) ∈ validateForm u :=
    fun h => ⟨posMsg, by simp [validateForm, posCheck, negCheck, h]⟩
  have c3 : u.priceLPG ≤ 0 → ∃ m, (Field.priceLPG, m) ∈ validateForm u :=
    fun h => ⟨posMsg, by simp [validateForm, posCheck, negCheck, h]⟩
  have c4 : u.priceElectricity ≤ 0 → ∃ m, (Field.priceElectricity, m) ∈ validateForm u :=
    fun h => ⟨posMsg, by simp [validateForm, posCheck, negCheck, h]⟩
  have c5 : u.purchaseGasoline ≤ 0 → ∃ m, (Field.purchaseGasoline, m) ∈ validateForm u :=
    fun h => ⟨posMsg, by simp [validateForm, posCheck, negCheck, h]⟩
  have c6 : u.purchaseDiesel ≤ 0 → ∃ m, (Field.purchaseDiesel, m) ∈ validateForm u :=
    fun h => ⟨posMsg, by simp [validateForm, posCheck, negCheck, h]⟩
  have c7 : u.purchaseLPG ≤ 0 → ∃ m, (Field.purchaseLPG, m) ∈ validateForm u :=
    fun h => ⟨posMsg, by simp [validateForm, posCheck, negCheck, h]⟩
  have c8 : u.purchaseHEV ≤ 0 → ∃ m, (Field.purchaseHEV, m) ∈ validateForm u :=
    fun h => ⟨posMsg, by simp [validateForm, posCheck, negCheck, h]⟩
  have c9 : u.purchasePHEV ≤ 0 → ∃ m, (Field.purchasePHEV, m) ∈ validateForm u :=
    fun h => ⟨posMsg, by simp [validateForm, posCheck, negCheck, h]⟩
  have c10 : u.weekdayCommuteKm < 0 → ∃ m, (Field.weekdayCommuteKm, m) ∈ validateForm u :=
    fun h => ⟨negMsg, by simp [validateForm, posCheck, negCheck, h]⟩
  have c11 : u.weekendTripKm < 0 → ∃ m, (Field.weekendTripKm, m) ∈ validateForm u :=
    fun h => ⟨negMsg, by simp [validateForm, posCheck, negCheck, h]⟩
  have c12 : u.estimatedAnnualKm < 0 → ∃ m, (Field.estimatedAnnualKm, m) ∈ validateForm u :=
    fun h => ⟨negMsg, by simp [validateForm, posCheck, negCheck, h]⟩
  have c13 : u.years < 1 → ∃ m, (Field.years, m) ∈ validateForm u :=
    fun h => ⟨yearsMsg, by simp [validateForm, posCheck, negCheck, h]⟩
  refine ⟨c1, c2, c3, c4, c5, c6, c7, c8, c9, c10, c11, c12, c13, ?_, ?_⟩
  · unfold calculationStarts
    exact List.isEmpty_iff
  · rintro (h|h|h|h|h|h|h|h|h|h|h|h|h)
    · exact startsFalse_of_mem (c1 h).choose_spec
    · exact startsFalse_of_mem (c2 h).choose_spec
    · exact startsFalse_of_mem (c3 h).choose_spec
    · exact startsFalse_of_mem (c4 h).choose_spec
    · exact startsFalse_of_mem (c5 h).choose_spec
    · exact startsFalse_of_mem (c6 h).choose_spec
    · exact startsFalse_of_mem (c7 h).choose_spec
    · exact startsFalse_of_mem (c8 h).choose_spec
    · exact startsFalse_of_mem (c9 h).choose_spec
    · exact startsFalse_of_mem (c10 h).choose_spec
    · exact startsFalse_of_mem (c11 h).choose_spec
    · exact startsFalse_of_mem (c12 h).choose_spec
    · exact startsFalse_of_mem (c13 h).choose_spec

/-- Witness for C8: a form state with a zero gasoline price gets an
error on the gasoline-price field and the calculation never starts. -/
theorem validation_gates_calculation_witness :
    uBad.priceGasoline ≤ 0 ∧
    (∃ m, (Field.priceGasoline, m) ∈ validateForm uBad) ∧
    calculationStarts uBad = false := by
  have h := validation_gates_calculation uBad
  have hle : uBad.priceGasoline ≤ 0 := by norm_num [uBad, uBase]
  exact ⟨hle, h.1 hle,
    h.2.2.2.2.2.2.2.2.2.2.2.2.2.2 (Or.inl hle)⟩

/-- Membership in an insertion step. -/
theorem mem_insertRes {x r : CalculationResult} {l : List CalculationResult} :
    x ∈ insertRes r l ↔ x = r ∨ x ∈ l := by
  induction l with
  | nil => simp [insertRes]
  | cons y ys ih =>
    unfold insertRes
    by_cases hle : sortLe r y
    · rw [if_pos hle]
      simp [List.mem_cons]
    · rw [if_neg hle]
      simp only [List.mem_cons, ih]
      tauto

/-- Sorting permutes nothing in and nothing out. -/
theorem mem_sortResults {x : CalculationResult} {l : List CalculationResult} :
    x ∈ sortResults l ↔ x ∈ l := by
  induction l with
  | nil => simp [sortResults]
  | cons y ys ih => simp [sortResults, mem_insertRes, ih]

/-- Every element of `calculatedResults` still has its initial `null`
amortization. -/
theorem amort_none_of_mem_calculated {u : UserInput} {p : RoutePreset}
    {cars : List FuelConsumptionData} {y : CalculationResult}
    (hy : y ∈ calculatedResults u p cars) : y.amortizationYears = none := by
  obtain ⟨car, _, rfl⟩ := List.mem_map.mp hy
  rfl

/-- Every element of the amortization pass comes from a pre-pass element
with the same name, costs, purchase price and annual distance. -/
theorem exists_src_of_applyAmortization {x : CalculationResult}
    {rs : List CalculationResult} (h : x ∈ applyAmortization rs) :
    ∃ y ∈ rs, x.name = y.name ∧ x.totalCost = y.totalCost ∧
      x.annualFuelCost = y.annualFuelCost ∧ x.purchasePrice = y.purchasePrice ∧
      x.annualKm = y.annualKm := by
  unfold applyAmortization at h
  cases hf : findGasoline rs with
  | none =>
    rw [hf] at h
    exact ⟨x, h, rfl, rfl, rfl, rfl, rfl⟩
  | some b =>
    rw [hf] at h
    obtain ⟨y, hy, rfl⟩ := List.mem_map.mp h
    exact ⟨y, hy, rfl, rfl, rfl, rfl, rfl⟩

/-- Every element of the final sorted results carries the fields of the
record built for one of the consumption records. -/
theorem exists_car_of_mem_sorted {x : CalculationResult} {u : UserInput}
    {p : RoutePreset} {cars : List FuelConsumptionData}
    (h : x ∈ sortedResults u p cars) :
    ∃ car ∈ cars,
      x.name = car.type ∧
      x.totalCost = (mkResult u (annualCityKm u p) (annualHighwayKm u p)
        (annualKmTotal u p) car).totalCost ∧
      x.annualFuelCost = annualFuelCost u (annualCityKm u p) (annualHighwayKm u p) car ∧
      x.purchasePrice = purchasePrices u car.fuelType ∧
      x.annualKm = annualKmTotal u p := by
  rw [sortedResults, mem_sortResults] at h
  obtain ⟨y, hy, h1, h2, h3, h4, h5⟩ := exists_src_of_applyAmortization h
  obtain ⟨car, hcar, rfl⟩ := List.mem_map.mp hy
  exact ⟨car, hcar, h1, h2, h3, h4, h5⟩

/-- C4. Every result's total cost is its purchase price plus its annual
fuel cost times the ownership horizon; in the spec's scenario (default
form state, mixed preset, gasoline at 7 / 5.5 L per 100 km) the pipeline
yields annual distance 20800 km (10400 city, 10400 highway), annual fuel
cost 2080 and total cost 39560. -/
theorem total_cost_formula :
    (∀ (u : UserInput) (p : RoutePreset) (cars : List FuelConsumptionData),
      ∀ r ∈ sortedResults u p cars,
        r.totalCost = r.annualFuelCost.map (fun a => r.purchasePrice + a * u.years)) ∧
    annualKmTotal uBase RoutePreset.mixed = 20800 ∧
    annualCityKm uBase RoutePreset.mixed = 10400 ∧
    annualHighwayKm uBase RoutePreset.mixed = 10400 ∧
    sortedResults uBase RoutePreset.mixed [gasCar] = [gasResult] ∧
    gasResult.annualFuelCost = some 2080 ∧
    gasResult.totalCost = some 39560 := by
  refine ⟨?_, ?_, ?_, ?_, ?_, rfl, rfl⟩
  · intro u p cars r hr
    obtain ⟨car, _, _, h2, h3, h4, _⟩ := exists_car_of_mem_sorted hr
    rw [h2, h3, h4]
    rfl
  · norm_num [annualKmTotal, annualCityKm, annualHighwayKm, uBase, cityFrac, highwayFrac]
  · norm_num [annualCityKm, uBase, cityFrac]
  · norm_num [annualHighwayKm, uBase, highwayFrac]
  · simp [sortedResults, amortizedResults, applyAmortization, calculatedResults,
      findGasoline, mkResult, annualFuelCost, fuelPrices, purchasePrices,
      annualCityKm, annualHighwayKm, annualKmTotal, cityFrac, highwayFrac,
      uBase, gasCar, gasResult, sortResults, insertRes, sortLe,
      amortUpdate, amortFor, optSavings, List.find?]
    norm_num

/-- Witness for C4: the gasoline scenario result satisfies the
total-cost relation. -/
theorem total_cost_formula_witness :
    gasResult ∈ sortedResults uBase RoutePreset.mixed [gasCar] ∧
    gasResult.totalCost
      = gasResult.annualFuelCost.map (fun a => gasResult.purchasePrice + a * uBase.years) := by
  have hl : sortedResults uBase RoutePreset.mixed [gasCar] = [gasResult] :=
    total_cost_formula.2.2.2.2.1
  have hmem : gasResult ∈ sortedResults uBase RoutePreset.mixed [gasCar] := by
    rw [hl]
    exact List.mem_singleton.mpr rfl
  exact ⟨hmem, total_cost_formula.1 uBase RoutePreset.mixed [gasCar] gasResult hmem⟩

/-- C5. A result's amortization is non-null exactly when a result named
"Gasolina" was found, the result itself is not named "Gasolina", its
purchase price strictly exceeds the baseline's, and the annual savings
(baseline annual cost minus the result's, NaN-free) are strictly
positive; in that case it equals the purchase-price premium divided by
the savings, and in every other case — no gasoline record, or zero or
negative or NaN savings — it stays null. -/
theorem amortization_iff (u : UserInput) (p : RoutePreset)
    (cars : List FuelConsumptionData) (r : CalculationResult)
    (hr : r ∈ amortizedResults u p cars) :
    (r.amortizationYears ≠ none ↔
      ∃ b s, findGasoline (calculatedResults u p cars) = some b ∧
        r.name ≠ "Gasolina" ∧ b.purchasePrice < r.purchasePrice ∧
        optSavings b r = some s ∧ 0 < s) ∧
    (∀ b s, findGasoline (calculatedResults u p cars) = some b →
      r.name ≠ "Gasolina" → b.purchasePrice < r.purchasePrice →
      optSavings b r = some s → 0 < s →
      r.amortizationYears = some ((r.purchasePrice - b.purchasePrice) / s)) := by
  unfold amortizedResults applyAmortization at hr
  cases hf : findGasoline (calculatedResults u p cars) with
  | none =>
    rw [hf] at hr
    have h0 : r.amortizationYears = none := amort_none_of_mem_calculated hr
    constructor
    · rw [h0]
      simp
    · intro b s hb
      exact absurd hb (by simp)
  | some b0 =>
    rw [hf] at hr
    obtain ⟨y, hy, rfl⟩ := List.mem_map.mp hr
    have h0 : y.amortizationYears = none := amort_none_of_mem_calculated hy
    by_cases hc : y.name ≠ "Gasolina" ∧ b0.purchasePrice < y.purchasePrice
    · cases hs : optSavings b0 y with
      | some s0 =>
        by_cases hpos : 0 < s0
        · have ha : (amortUpdate b0 y).amortizationYears
              = some ((y.purchasePrice - b0.purchasePrice) / s0) := by
            show amortFor b0 y = _
            rw [amortFor, if_pos hc, hs]
            show (if 0 < s0 then some ((y.purchasePrice - b0.purchasePrice) / s0)
              else y.amortizationYears) = _
            rw [if_pos hpos]
          constructor
          · exact iff_of_true (by rw [ha]; simp) ⟨b0, s0, rfl, hc.1, hc.2, hs, hpos⟩
          · intro b s hb hn hlt hsv hpv
            have hbb : b0 = b := Option.some.inj hb
            subst hbb
            rw [show optSavings b0 (amortUpdate b0 y) = optSavings b0 y from rfl, hs] at hsv
            have hss : s0 = s := Option.some.inj hsv
            subst hss
            exact ha
        · have ha : (amortUpdate b0 y).amortizationYears = none := by
            show amortFor b0 y = _
            rw [amortFor, if_pos hc, hs]
            show (if 0 < s0 then some ((y.purchasePrice - b0.purchasePrice) / s0)
              else y.amortizationYears) = _
            rw [if_neg hpos]
            exact h0
          constructor
          · refine iff_of_false (by rw [ha]; simp) ?_
            rintro ⟨b, s, hb, hn, hlt, hsv, hpv⟩
            have hbb : b0 = b := Option.some.inj hb
            subst hbb
            rw [show optSavings b0 (amortUpdate b0 y) = optSavings b0 y from rfl, hs] at hsv
            have hss : s0 = s := Option.some.inj hsv
            rw [← hss] at hpv
            exact hpos hpv
          · intro b s hb hn hlt hsv hpv
            have hbb : b0 = b := Option.some.inj hb
            subst hbb
            rw [show optSavings b0 (amortUpdate b0 y) = optSavings b0 y from rfl, hs] at hsv
            have hss : s0 = s := Option.some.inj hsv
            rw [← hss] at hpv
            exact absurd hpv hpos
      | none =>
        have ha : (amortUpdate b0 y).amortizationYears = none := by
          show amortFor b0 y = _
          rw [amortFor, if_pos hc, hs]
          exact h0
        constructor
        · refine iff_of_false (by rw [ha]; simp) ?_
          rintro ⟨b, s, hb, hn, hlt, hsv, hpv⟩
          have hbb : b0 = b := Option.some.inj hb
          subst hbb
          rw [show optSavings b0 (amortUpdate b0 y) = optSavings b0 y from rfl, hs] at hsv
          exact absurd hsv (by simp)
        · intro b s hb hn hlt hsv hpv
          have hbb : b0 = b := Option.some.inj hb
          subst hbb
          rw [show optSavings b0 (amortUpdate b0 y) = optSavings b0 y from rfl, hs] at hsv
          exact absurd hsv (by simp)
    · have ha : (amortUpdate b0 y).amortizationYears = none := by
        show amortFor b0 y = _
        rw [amortFor, if_neg hc]
        exact h0
      constructor
      · refine iff_of_false (by rw [ha]; simp) ?_
        rintro ⟨b, s, hb, hn, hlt, hsv, hpv⟩
        have hbb : b0 = b := Option.some.inj hb
        subst hbb
        exact hc ⟨hn, hlt⟩
      · intro b s hb hn hlt hsv hpv
        have hbb : b0 = b := Option.some.inj hb
        subst hbb
        exact absurd ⟨hn, hlt⟩ hc

/-- Witness for C5: with the default form state, mixed preset and the
gasoline and diesel records, the diesel result amortizes its 2000 euro
premium against 364 euro of annual savings. -/
theorem amortization_iff_witness :
    dieselResult ∈ amortizedResults uBase RoutePreset.mixed [gasCar, dieselCar] ∧
    dieselResult.amortizationYears
      = some ((dieselResult.purchasePrice - gasResult.purchasePrice) / 364) := by
  have hl : amortizedResults uBase RoutePreset.mixed [gasCar, dieselCar]
      = [gasResult, dieselResult] := by
    simp [amortizedResults, applyAmortization, calculatedResults, findGasoline, mkResult,
      annualFuelCost, fuelPrices, purchasePrices, annualCityKm, annualHighwayKm,
      annualKmTotal, cityFrac, highwayFrac, uBase, gasCar, dieselCar, gasResult,
      dieselResult, amortUpdate, amortFor, optSavings, List.find?]
    norm_num
  have hmem : dieselResult ∈ amortizedResults uBase RoutePreset.mixed [gasCar, dieselCar] := by
    rw [hl]
    simp
  have hfind : findGasoline (calculatedResults uBase RoutePreset.mixed [gasCar, dieselCar])
      = some gasResult := by
    simp [calculatedResults, findGasoline, mkResult, annualFuelCost, fuelPrices,
      purchasePrices, annualCityKm, annualHighwayKm, annualKmTotal, cityFrac, highwayFrac,
      uBase, gasCar, dieselCar, gasResult, List.find?]
    norm_num
  have hsav : optSavings gasResult dieselResult = some 364 := by
    norm_num [optSavings, gasResult, dieselResult]
  exact ⟨hmem,
    (amortization_iff uBase RoutePreset.mixed [gasCar, dieselCar] dieselResult hmem).2
      gasResult 364 hfind (by simp [dieselResult]) (by norm_num [gasResult, dieselResult])
      hsav (by norm_num)⟩

/-- Inserting grows the length by one. -/
theorem length_insertRes (r : CalculationResult) (l : List CalculationResult) :
    (insertRes r l).length = l.length + 1 := by
  induction l with
  | nil => rfl
  | cons x xs ih =>
    unfold insertRes
    by_cases h : sortLe r x = true
    · rw [if_pos h]
      simp
    · rw [if_neg h]
      simp [ih]

/-- Sorting preserves the length. -/
theorem length_sortResults (l : List CalculationResult) :
    (sortResults l).length = l.length := by
  induction l with
  | nil => rfl
  | cons x xs ih =>
    unfold sortResults
    rw [length_insertRes, ih]
    rfl

/-- The amortization pass preserves the length. -/
theorem length_applyAmortization (rs : List CalculationResult) :
    (applyAmortization rs).length = rs.length := by
  unfold applyAmortization
  cases findGasoline rs with
  | none => rfl
  | some b => exact List.length_map rs (amortUpdate b)

/-- The final results have one entry per consumption record. -/
theorem length_sortedResults (u : UserInput) (p : RoutePreset)
    (cars : List FuelConsumptionData) :
    (sortedResults u p cars).length = cars.length := by
  rw [sortedResults, length_sortResults, amortizedResults, length_applyAmortization,
    calculatedResults]
  exact List.length_map cars _

/-- A record whose fuel type is not `hibrido` gets a defined (non-NaN)
annual fuel cost. -/
theorem annualFuelCost_isSome (u : UserInput) (c hw : ℚ) (car : FuelConsumptionData)
    (h : car.fuelType ≠ FuelType.hibrido) :
    (annualFuelCost u c hw car).isSome = true := by
  cases hft : car.fuelType with
  | gasolina => simp [annualFuelCost, fuelPrices, hft]
  | diesel => simp [annualFuelCost, fuelPrices, hft]
  | glp => simp [annualFuelCost, fuelPrices, hft]
  | hibrido => exact absurd hft h
  | phev => simp [annualFuelCost, hft]

/-- Every final result built from non-`hibrido` records has a defined
total cost. -/
theorem totalCost_isSome_of_mem_sorted {x : CalculationResult} {u : UserInput}
    {p : RoutePreset} {cars : List FuelConsumptionData}
    (hx : x ∈ sortedResults u p cars)
    (hcars : ∀ car ∈ cars, car.fuelType ≠ FuelType.hibrido) :
    x.totalCost.isSome = true := by
  obtain ⟨car, hcar, _, h2, _, _, _⟩ := exists_car_of_mem_sorted hx
  obtain ⟨a, haa⟩ := Option.isSome_iff_exists.mp
    (annualFuelCost_isSome u (annualCityKm u p) (annualHighwayKm u p) car (hcars car hcar))
  rw [h2]
  show ((annualFuelCost u (annualCityKm u p) (annualHighwayKm u p) car).map
    (fun a => purchasePrices u car.fuelType + a * u.years)).isSome = true
  rw [haa]
  rfl

/-- The comparator orders two defined total costs by `≤`. -/
theorem keyLe_of_sortLe (a b : CalculationResult) (ha : a.totalCost.isSome = true)
    (hb : b.totalCost.isSome = true) (h : sortLe a b = true) : keyLe a b := by
  obtain ⟨x, hx⟩ := Option.isSome_iff_exists.mp ha
  obtain ⟨y, hy⟩ := Option.isSome_iff_exists.mp hb
  unfold sortLe at h
  rw [hx, hy] at h
  unfold keyLe tKey
  rw [hx, hy]
  simpa using h

/-- A failed comparison between defined total costs flips the order. -/
theorem keyLe_of_not_sortLe (a b : CalculationResult) (ha : a.totalCost.isSome = true)
    (hb : b.totalCost.isSome = true) (h : ¬ sortLe a b = true) : keyLe b a := by
  obtain ⟨x, hx⟩ := Option.isSome_iff_exists.mp ha
  obtain ⟨y, hy⟩ := Option.isSome_iff_exists.mp hb
  unfold sortLe at h
  rw [hx, hy] at h
  unfold keyLe tKey
  rw [hx, hy]
  simp at h ⊢
  exact le_of_lt h

/-- Inserting into a sorted list of defined-cost results keeps it
sorted. -/
theorem pairwise_insertRes (r : CalculationResult) (l : List CalculationResult)
    (hr : r.totalCost.isSome = true) (hl : ∀ x ∈ l, x.totalCost.isSome = true)
    (h : l.Pairwise keyLe) : (insertRes r l).Pairwise keyLe := by
  induction l with
  | nil => simp [insertRes]
  | cons x xs ih =>
    have hx : x.totalCost.isSome = true := hl x (List.mem_cons_self x xs)
    have hxs : ∀ z ∈ xs, z.totalCost.isSome = true :=
      fun z hz => hl z (List.mem_cons_of_mem x hz)
    rw [List.pairwise_cons] at h
    unfold insertRes
    by_cases hle : sortLe r x = true
    · rw [if_pos hle, List.pairwise_cons]
      constructor
      · intro z hz
        rcases List.mem_cons.mp hz with hzx | hz2
        · rw [hzx]
          exact keyLe_of_sortLe r x hr hx hle
        · exact le_trans (keyLe_of_sortLe r x hr hx hle) (h.1 z hz2)
      · exact List.pairwise_cons.mpr h
    · rw [if_neg hle, List.pairwise_cons]
      constructor
      · intro z hz
        rcases mem_insertRes.mp hz with hzr | hz2
        · rw [hzr]
          exact keyLe_of_not_sortLe r x hr hx hle
        · exact h.1 z hz2
      · exact ih hxs h.2

/-- Insertion sort sorts any list of defined-cost results. -/
theorem pairwise_sortResults (l : List CalculationResult)
    (hl : ∀ x ∈ l, x.totalCost.isSome = true) :
    (sortResults l).Pairwise keyLe := by
  induction l with
  | nil => simp [sortResults]
  | cons x xs ih =>
    unfold sortResults
    refine pairwise_insertRes x (sortResults xs) (hl x (List.mem_cons_self x xs)) ?_ ?_
    · exact fun z hz => hl z (List.mem_cons_of_mem x (mem_sortResults.mp hz))
    · exact ih (fun z hz => hl z (List.mem_cons_of_mem x hz))

/-- The key order on defined total costs gives the claimed option
order. -/
theorem optLeQ_of_key (a b : CalculationResult) (ha : a.totalCost.isSome = true)
    (hb : b.totalCost.isSome = true) (h : keyLe a b) :
    optLeQ a.totalCost b.totalCost := by
  obtain ⟨x, hx⟩ := Option.isSome_iff_exists.mp ha
  obtain ⟨y, hy⟩ := Option.isSome_iff_exists.mp hb
  refine ⟨x, y, hx, hy, ?_⟩
  unfold keyLe tKey at h
  rw [hx, hy] at h
  simpa using h

/-- Pointwise transfer of sortedness to the claimed option order. -/
theorem pairwise_optLeQ_of_keyLe (l : List CalculationResult)
    (hl : ∀ x ∈ l, x.totalCost.isSome = true) (h : l.Pairwise keyLe) :
    l.Pairwise (fun a b => optLeQ a.totalCost b.totalCost) := by
  induction l with
  | nil => simp
  | cons x xs ih =>
    rw [List.pairwise_cons] at h ⊢
    constructor
    · intro z hz
      exact optLeQ_of_key x z (hl x (List.mem_cons_self x xs))
        (hl z (List.mem_cons_of_mem x hz)) (h.1 z hz)
    · exact ih (fun z hz => hl z (List.mem_cons_of_mem x hz)) h.2

/-- C6 (amended). For every non-empty consumption-record list whose fuel
prices are all defined (no `hibrido` record), the returned results are
sorted non-decreasing by total cost and the first element — the one the
UI designates "best" — has the minimum total cost. -/
theorem results_sorted_and_best (u : UserInput) (p : RoutePreset)
    (cars : List FuelConsumptionData) (hne : cars ≠ [])
    (hcars : ∀ car ∈ cars, car.fuelType ≠ FuelType.hibrido) :
    ((sortedResults u p cars).map (fun r => r.totalCost)).Pairwise optLeQ ∧
    ∃ b, bestResult u p cars = some b ∧
      ∀ r ∈ sortedResults u p cars, optLeQ b.totalCost r.totalCost := by
  have hsome : ∀ x ∈ sortedResults u p cars, x.totalCost.isSome = true :=
    fun x hx => totalCost_isSome_of_mem_sorted hx hcars
  have hsrt : (sortedResults u p cars).Pairwise keyLe := by
    rw [sortedResults]
    refine pairwise_sortResults _ ?_
    intro z hz
    exact hsome z (by rw [sortedResults]; exact mem_sortResults.mpr hz)
  constructor
  · rw [List.pairwise_map]
    exact pairwise_optLeQ_of_keyLe _ hsome hsrt
  · cases hl : sortedResults u p cars with
    | nil =>
      exfalso
      have hlen := length_sortedResults u p cars
      rw [hl] at hlen
      exact hne (List.length_eq_zero.mp hlen.symm)
    | cons b tl =>
      refine ⟨b, ?_, ?_⟩
      · rw [bestResult, hl]
        rfl
      · intro r hr
        have hb : b.totalCost.isSome = true :=
          hsome b (by rw [hl]; exact List.mem_cons_self _ _)
        rcases List.mem_cons.mp hr with hrb | hr3
        · rw [hrb]
          obtain ⟨v, hv⟩ := Option.isSome_iff_exists.mp hb
          exact ⟨v, v, hv, hv, le_refl v⟩
        · rw [hl, List.pairwise_cons] at hsrt
          exact optLeQ_of_key b r hb (hsome r (by rw [hl]; exact hr)) (hsrt.1 r hr3)

/-- Witness for C6: the gasoline-plus-diesel scenario yields a sorted
result list with a minimal first element. -/
theorem results_sorted_and_best_witness :
    ((sortedResults uBase RoutePreset.mixed [gasCar, dieselCar]).map
      (fun r => r.totalCost)).Pairwise optLeQ ∧
    ∃ b, bestResult uBase RoutePreset.mixed [gasCar, dieselCar] = some b ∧
      ∀ r ∈ sortedResults uBase RoutePreset.mixed [gasCar, dieselCar],
        optLeQ b.totalCost r.totalCost :=
  results_sorted_and_best uBase RoutePreset.mixed [gasCar, dieselCar]
    (by simp) (by simp [gasCar, dieselCar])

/-- Counterexample to C6 as stated: with the gasoline, hybrid and diesel
records, the sort comparator returns NaN against the hybrid entry (which
ECMAScript treats as equality), so the returned order is
39560, NaN, 39012 — not non-decreasing by total cost. -/
theorem results_unsorted_with_hev :
    ¬ ((sortedResults uBase RoutePreset.mixed [gasCar, hevCar, dieselCar]).map
      (fun r => r.totalCost)).Pairwise optLeQ ∧
    (sortedResults uBase RoutePreset.mixed [gasCar, hevCar, dieselCar]).map
      (fun r => r.totalCost) = [some 39560, none, some 39012] := by
  have hmap : (sortedResults uBase RoutePreset.mixed [gasCar, hevCar, dieselCar]).map
      (fun r => r.totalCost) = [some 39560, none, some 39012] := by
    simp [sortedResults, amortizedResults, applyAmortization, calculatedResults,
      findGasoline, mkResult, annualFuelCost, fuelPrices, purchasePrices,
      annualCityKm, annualHighwayKm, annualKmTotal, cityFrac, highwayFrac,
      uBase, gasCar, hevCar, dieselCar, sortResults, insertRes, sortLe,
      amortUpdate, amortFor, optSavings, List.find?]
    norm_num
  refine ⟨?_, hmap⟩
  rw [hmap]
  intro hpw
  rw [List.pairwise_cons] at hpw
  obtain ⟨x, y, hx, hy, _⟩ := hpw.1 none (by simp)
  exact Option.noConfusion hy

/-- Each preset fraction is non-negative. -/
theorem cityFrac_nonneg (p : RoutePreset) : 0 ≤ cityFrac p := by
  cases p <;> norm_num [cityFrac]

/-- Each preset highway fraction is non-negative. -/
theorem highwayFrac_nonneg (p : RoutePreset) : 0 ≤ highwayFrac p := by
  cases p <;> norm_num [highwayFrac]

/-- The annual city distance is non-negative on valid distances. -/
theorem annualCityKm_nonneg (u : UserInput) (p : RoutePreset)
    (h1 : 0 ≤ u.weekdayCommuteKm) (h2 : 0 ≤ u.weekendTripKm)
    (h3 : 0 ≤ u.estimatedAnnualKm) : 0 ≤ annualCityKm u p := by
  have hcf := cityFrac_nonneg p
  unfold annualCityKm
  split
  · exact mul_nonneg h3 hcf
  · have t1 : 0 ≤ u.weekdayCommuteKm * cityFrac p * 2 * 5 :=
      mul_nonneg (mul_nonneg (mul_nonneg h1 hcf) (by norm_num)) (by norm_num)
    have t2 : 0 ≤ u.weekendTripKm * cityFrac p := mul_nonneg h2 hcf
    exact mul_nonneg (add_nonneg t1 t2) (by norm_num)

/-- The annual highway distance is non-negative on valid distances. -/
theorem annualHighwayKm_nonneg (u : UserInput) (p : RoutePreset)
    (h1 : 0 ≤ u.weekdayCommuteKm) (h2 : 0 ≤ u.weekendTripKm)
    (h3 : 0 ≤ u.estimatedAnnualKm) : 0 ≤ annualHighwayKm u p := by
  have hcf := highwayFrac_nonneg p
  unfold annualHighwayKm
  split
  · exact mul_nonneg h3 hcf
  · have t1 : 0 ≤ u.weekdayCommuteKm * highwayFrac p * 2 * 5 :=
      mul_nonneg (mul_nonneg (mul_nonneg h1 hcf) (by norm_num)) (by norm_num)
    have t2 : 0 ≤ u.weekendTripKm * highwayFrac p := mul_nonneg h2 hcf
    exact mul_nonneg (add_nonneg t1 t2) (by norm_num)

/-- A defined fuel price is one of the three non-negative prices. -/
theorem fuelPrices_nonneg (u : UserInput) (ft : FuelType) (pr : ℚ)
    (hg : 0 ≤ u.priceGasoline) (hd : 0 ≤ u.priceDiesel) (hl : 0 ≤ u.priceLPG)
    (h : fuelPrices u ft = some pr) : 0 ≤ pr := by
  cases ft with
  | gasolina =>
    rw [show fuelPrices u FuelType.gasolina = some u.priceGasoline from rfl] at h
    rw [← Option.some.inj h]
    exact hg
  | diesel =>
    rw [show fuelPrices u FuelType.diesel = some u.priceDiesel from rfl] at h
    rw [← Option.some.inj h]
    exact hd
  | glp =>
    rw [show fuelPrices u FuelType.glp = some u.priceLPG from rfl] at h
    rw [← Option.some.inj h]
    exact hl
  | hibrido => exact absurd h (by simp [fuelPrices])
  | phev => exact absurd h (by simp [fuelPrices])

/-- A defined annual fuel cost is non-negative on valid inputs. -/
theorem annualFuelCost_nonneg (u : UserInput) (c hw : ℚ) (car : FuelConsumptionData)
    (hc : 0 ≤ c) (hhw : 0 ≤ hw)
    (hg : 0 ≤ u.priceGasoline) (hd : 0 ≤ u.priceDiesel) (hl : 0 ≤ u.priceLPG)
    (he : 0 ≤ u.priceElectricity)
    (hcc : 0 ≤ car.cityConsumptionLiters) (hhc : 0 ≤ car.highwayConsumptionLiters)
    (hck : 0 ≤ car.cityConsumptionKwh) :
    ∀ a, annualFuelCost u c hw car = some a → 0 ≤ a := by
  intro a ha
  have hc100 : 0 ≤ c / 100 := div_nonneg hc (by norm_num)
  have hw100 : 0 ≤ hw / 100 := div_nonneg hhw (by norm_num)
  unfold annualFuelCost at ha
  split at ha
  · have haa := Option.some.inj ha
    rw [← haa]
    have t1 : 0 ≤ c / 100 * car.cityConsumptionKwh * u.priceElectricity :=
      mul_nonneg (mul_nonneg hc100 hck) he
    have t2 : 0 ≤ c / 100 * car.cityConsumptionLiters * u.priceGasoline :=
      mul_nonneg (mul_nonneg hc100 hcc) hg
    have t3 : 0 ≤ hw / 100 * car.highwayConsumptionLiters * u.priceGasoline :=
      mul_nonneg (mul_nonneg hw100 hhc) hg
    exact add_nonneg (add_nonneg t1 t2) t3
  · cases hpr : fuelPrices u car.fuelType with
    | none =>
      rw [hpr] at ha
      exact absurd ha (by simp)
    | some pr =>
      rw [hpr] at ha
      have haa : c / 100 * car.cityConsumptionLiters * pr
          + hw / 100 * car.highwayConsumptionLiters * pr = a := Option.some.inj ha
      rw [← haa]
      have hpr0 : 0 ≤ pr := fuelPrices_nonneg u car.fuelType pr hg hd hl hpr
      have t1 : 0 ≤ c / 100 * car.cityConsumptionLiters * pr :=
        mul_nonneg (mul_nonneg hc100 hcc) hpr0
      have t2 : 0 ≤ hw / 100 * car.highwayConsumptionLiters * pr :=
        mul_nonneg (mul_nonneg hw100 hhc) hpr0
      exact add_nonneg t1 t2

/-- C7 (amended). On valid inputs (non-negative distances, consumptions
and prices, horizon at least 1) and any consumption-record list, every
result whose annual fuel cost is defined — every variant except the
non-plug-in hybrid, whose fuel-price lookup is `undefined` — has a total
cost that is a number at least its purchase price. -/
theorem total_ge_purchase (u : UserInput) (p : RoutePreset)
    (cars : List FuelConsumptionData)
    (h1 : 0 ≤ u.weekdayCommuteKm) (h2 : 0 ≤ u.weekendTripKm)
    (h3 : 0 ≤ u.estimatedAnnualKm)
    (h4 : 0 ≤ u.priceGasoline) (h5 : 0 ≤ u.priceDiesel) (h6 : 0 ≤ u.priceLPG)
    (h7 : 0 ≤ u.priceElectricity) (h8 : 1 ≤ u.years)
    (hcars : ∀ car ∈ cars, 0 ≤ car.cityConsumptionLiters ∧
      0 ≤ car.highwayConsumptionLiters ∧ 0 ≤ car.cityConsumptionKwh) :
    ∀ r ∈ sortedResults u p cars, ∀ a, r.annualFuelCost = some a →
      ∃ t, r.totalCost = some t ∧ r.purchasePrice ≤ t := by
  intro r hr a ha
  obtain ⟨car, hcar, _, hq2, hr3, hr4, _⟩ := exists_car_of_mem_sorted hr
  obtain ⟨hcc, hhc, hck⟩ := hcars car hcar
  rw [hr3] at ha
  have ha0 : 0 ≤ a := annualFuelCost_nonneg u (annualCityKm u p) (annualHighwayKm u p) car
    (annualCityKm_nonneg u p h1 h2 h3) (annualHighwayKm_nonneg u p h1 h2 h3)
    h4 h5 h6 h7 hcc hhc hck a ha
  refine ⟨purchasePrices u car.fuelType + a * u.years, ?_, ?_⟩
  · rw [hq2]
    show ((annualFuelCost u (annualCityKm u p) (annualHighwayKm u p) car).map
      (fun x => purchasePrices u car.fuelType + x * u.years)) = _
    rw [ha]
    rfl
  · rw [hr4]
    have : 0 ≤ a * u.years := mul_nonneg ha0 (le_trans zero_le_one h8)
    exact le_add_of_nonneg_right this

/-- Witness for C7 on a mixed list that contains the hybrid record: the
gasoline result's annual fuel cost is defined and its total cost, 39560,
is at least its 25000 purchase price. -/
theorem total_ge_purchase_witness :
    gasResult ∈ sortedResults uBase RoutePreset.mixed [gasCar, hevCar] ∧
    gasResult.annualFuelCost = some 2080 ∧
    ∃ t, gasResult.totalCost = some t ∧ gasResult.purchasePrice ≤ t := by
  have hmem : gasResult ∈ sortedResults uBase RoutePreset.mixed [gasCar, hevCar] := by
    have hl : sortedResults uBase RoutePreset.mixed [gasCar, hevCar]
        = [gasResult, hevResult] := by
      simp [sortedResults, amortizedResults, applyAmortization, calculatedResults,
        findGasoline, mkResult, annualFuelCost, fuelPrices, purchasePrices,
        annualCityKm, annualHighwayKm, annualKmTotal, cityFrac, highwayFrac,
        uBase, gasCar, hevCar, gasResult, hevResult, sortResults, insertRes, sortLe,
        amortUpdate, amortFor, optSavings, List.find?]
      norm_num
    rw [hl]
    exact List.mem_cons_self _ _
  refine ⟨hmem, rfl, total_ge_purchase uBase RoutePreset.mixed [gasCar, hevCar]
    (by norm_num [uBase]) (by norm_num [uBase]) (by norm_num [uBase])
    (by norm_num [uBase]) (by norm_num [uBase]) (by norm_num [uBase])
    (by norm_num [uBase]) (by norm_num [uBase])
    (by simp [gasCar, hevCar]; norm_num) gasResult hmem 2080 rfl⟩

/-- Counterexample to C7 as stated: on the valid default input with a
hybrid record, the hybrid's total cost is NaN, so it is not a number at
least its 30000 purchase price. -/
theorem total_cost_nan_with_hev :
    (0 : ℚ) ≤ uBase.weekdayCommuteKm ∧ 1 ≤ uBase.years ∧
    hevResult ∈ sortedResults uBase RoutePreset.mixed [hevCar] ∧
    ¬ ∃ t, hevResult.totalCost = some t ∧ hevResult.purchasePrice ≤ t := by
  have hl : sortedResults uBase RoutePreset.mixed [hevCar] = [hevResult] := by
    simp [sortedResults, amortizedResults, applyAmortization, calculatedResults,
      findGasoline, mkResult, annualFuelCost, fuelPrices, purchasePrices,
      annualCityKm, annualHighwayKm, annualKmTotal, cityFrac, highwayFrac,
      uBase, hevCar, hevResult, sortResults, insertRes, sortLe,
      amortUpdate, amortFor, optSavings, List.find?]
    norm_num
  refine ⟨by norm_num [uBase], by norm_num [uBase], ?_, ?_⟩
  · rw [hl]
    exact List.mem_singleton.mpr rfl
  · rintro ⟨t, ht, _⟩
    rw [show hevResult.totalCost = none from rfl] at ht
    exact Option.noConfusion ht

end CompraCoche
